import Mathlib

set_option maxRecDepth 8000

/-!
Shallow embedding of the ESP32 firmware in src/esp32/src/main.cpp
(xp-d463b-pdf-printer): BLE link lifecycle, chunked printer writes,
scan matching, screen power control, status JSON and the /print route.
Global mutable variables of the sketch become fields of `SysState`;
callbacks and handlers become explicit state-passing functions; the
BLE radio is an oracle (`BleEnv`, the per-chunk `ack` function);
side effects are recorded in an explicit `Effect` trace.
-/

namespace XPD463B

/-- The `CHUNK_SIZE` constant of `printToBLEPrinter` (main.cpp line 444). -/
def CHUNK_SIZE : Nat := 240

/-- The `SCREEN_TIMEOUT` constant, milliseconds (main.cpp line 93). -/
def SCREEN_TIMEOUT : Nat := 30000

/-- Modulus of the 32-bit unsigned arithmetic used on `millis()` values. -/
def U32 : Nat := 4294967296

/-- Wrapping 32-bit subtraction, as in `millis() - lastActivityTime`. -/
def u32sub (a b : Nat) : Nat := (a + (U32 - b % U32)) % U32

/-- The address literal hardcoded in `MyAdvertisedDeviceCallbacks::onResult`
(main.cpp line 49).  Note the build-time configured `printerMac`
(`PRINTER_MAC`, line 16) is never consulted by the matcher. -/
def hardcodedScanTarget : String := "dd:0d:30:02:63:42"

/-- Arduino `String::equalsIgnoreCase`: ASCII case-insensitive comparison. -/
def eqIgnoreCase (a b : String) : Bool :=
  a.data.map Char.toLower == b.data.map Char.toLower

/-- The global mutable variables of main.cpp, gathered into one record:
`printerName` (line 23), `printerFound`/`scanCount`/`printerConnected`
(lines 28-30), `myDevice` (line 27, modelled by its address), `pClient`
(line 81, modelled by presence), `pRemoteCharacteristic` (line 82,
modelled by presence plus its `canWrite()` answer), `wifiIP` (line 83)
with the WiFi link state, and the screen variables (lines 94-95). -/
structure SysState where
  printerName : String
  printerFound : Bool
  printerConnected : Bool
  scanCount : Nat
  myDevice : Option String
  clientPresent : Bool
  charPresent : Bool
  charCanWrite : Bool
  wifiConnected : Bool
  wifiIP : String
  lastActivityTime : Nat
  isScreenOn : Bool
  backlightOn : Bool
deriving DecidableEq

/-- Outcome of a `printToBLEPrinter` call, read off its three branches:
the early return at line 435 (printer not connected), the
`canWrite()` failure at line 455, and the successful chunk loop. -/
inductive PrintOutcome where
  | notConnected
  | cannotWrite
  | printed
deriving DecidableEq

/-- Observable side effects of the embedded operations. -/
inductive Effect where
  | backlightHigh
  | backlightLow
  | redrawLCD
  | stopScan
  | bleWrite (chunk : List Nat)
  | gattConnect
  | setMTU
  | resolveService
  | resolveCharacteristic
  | clientDisconnect
  | readDeviceName
deriving DecidableEq

/-- Radio oracle for `connectToPrinter`: the outcomes of the external BLE
calls it makes, one per distinct failure point in main.cpp lines 306-420. -/
structure BleEnv where
  oldClientConnected : Bool
  clientCreated : Bool
  handshakeOk : Bool
  linkUpAfterMTU : Bool
  serviceFound : Bool
  charFound : Bool
  charWritable : Bool
  gaServiceFound : Bool
  gaNameCharFound : Bool
  gaNameReadable : Bool
  deviceName : String
deriving DecidableEq

/-- Function `wakeScreen` (main.cpp lines 522-530): records activity time, and if the
screen is off turns the backlight on, marks the screen on and redraws.
(The source stores `millis()` first and then tests `isScreenOn`; the
timestamp write does not affect the flag, so the branches are written
with both updates inlined.) -/
def wakeScreen (now : Nat) (s : SysState) : SysState × List Effect :=
  if s.isScreenOn = true then
    ({ s with lastActivityTime := now }, [])
  else
    ({ s with lastActivityTime := now, isScreenOn := true, backlightOn := true },
      [Effect.backlightHigh, Effect.redrawLCD])

/-- Function `checkScreenTimeout` (main.cpp lines 532-538): turns the screen off when
it is on and the wrapping elapsed time strictly exceeds `SCREEN_TIMEOUT`. -/
def checkScreenTimeout (now : Nat) (s : SysState) : SysState × List Effect :=
  if s.isScreenOn = true ∧ u32sub now s.lastActivityTime > SCREEN_TIMEOUT then
    ({ s with isScreenOn := false, backlightOn := false }, [Effect.backlightLow])
  else
    (s, [])

/-- The chunking `while` loop of `printToBLEPrinter` (main.cpp lines 447-453):
each iteration writes `min CHUNK_SIZE remaining` bytes starting at the
current offset and advances the offset.  The loop is embedded with fuel;
`data.length` iterations always suffice since the offset strictly grows. -/
def bleWriteLoop : Nat → List Nat → List (List Nat)
  | 0, _ => []
  | _, [] => []
  | fuel + 1, rem => rem.take CHUNK_SIZE :: bleWriteLoop fuel (rem.drop CHUNK_SIZE)

/-- The chunk sequence `printToBLEPrinter` sends for a payload. -/
def bleChunks (data : List Nat) : List (List Nat) :=
  bleWriteLoop data.length data

/-- Function `printToBLEPrinter` (main.cpp lines 432-458).  It first calls
`wakeScreen`, then returns early when not connected or the characteristic
pointer is null, then checks `canWrite()` and runs the chunk loop.
`ack` tells, per chunk index, whether the acknowledged `writeValue`
succeeds; the source never inspects any result of `writeValue`
(its value is discarded at line 451), so the trace and the outcome do
not depend on `ack`. -/
def printToBLEPrinter (now : Nat) (ack : Nat → Bool) (s : SysState)
    (data : List Nat) : PrintOutcome × SysState × List Effect :=
  let ws := wakeScreen now s
  if ws.1.printerConnected = false ∨ ws.1.charPresent = false then
    (PrintOutcome.notConnected, ws.1, ws.2)
  else if ws.1.charCanWrite = true then
    (PrintOutcome.printed, ws.1, ws.2 ++ (bleChunks data).map Effect.bleWrite)
  else
    (PrintOutcome.cannotWrite, ws.1, ws.2)

/-- Whether an effect is a chunk write on the printer characteristic. -/
def isBleWrite : Effect → Bool
  | Effect.bleWrite _ => true
  | _ => false

/-- The chunk writes contained in an effect trace. -/
def writesOf (effs : List Effect) : List Effect := effs.filter isBleWrite

/-- Callback `MyClientCallback::onDisconnect` (main.cpp lines 38-41): clears the
connected flag and nothing else. -/
def onDisconnect (s : SysState) : SysState :=
  { s with printerConnected := false }

/-- Function `disconnectFromPrinter` (main.cpp lines 422-430): disconnects the client
if present and connected, clears the characteristic pointer and the
connected flag.  `clientStillConnected` is the `pClient->isConnected()`
answer. -/
def disconnectFromPrinter (clientStillConnected : Bool) (s : SysState) :
    SysState × List Effect :=
  (({ s with charPresent := false, printerConnected := false }),
    if s.clientPresent = true ∧ clientStillConnected = true then
      [Effect.clientDisconnect]
    else [])

/-- Callback `MyAdvertisedDeviceCallbacks::onResult` (main.cpp lines 46-76): counts
the advertisement, and when the address equals the hardcoded literal
(case-insensitively) stops the scan, replaces the stored device and sets
the found flag. -/
def onResult (advAddress : String) (s : SysState) : SysState × List Effect :=
  let s1 := { s with scanCount := s.scanCount + 1 }
  if eqIgnoreCase advAddress hardcodedScanTarget = true then
    ({ s1 with myDevice := some advAddress, printerFound := true },
      [Effect.stopScan])
  else
    (s1, [])

/-- Function `connectToPrinter` (main.cpp lines 306-420).  Early-returns true when
already connected; fails when no device was found; otherwise cleans up
any previous client, creates a client, connects, sets the MTU, re-checks
the link, resolves the target service and characteristic (each a failure
point that disconnects, clears `pClient` and the connected flag), then
optionally reads the device name, and finally sets the connected flag. -/
def connectToPrinter (env : BleEnv) (s : SysState) :
    Bool × SysState × List Effect :=
  if s.printerConnected = true then
    (true, s, [])
  else if s.printerFound = false ∨ s.myDevice = none then
    (false, s, [])
  else
    let cleanupEffs : List Effect :=
      if s.clientPresent = true ∧ env.oldClientConnected = true then
        [Effect.clientDisconnect]
      else []
    let s1 := { s with clientPresent := false }
    if env.clientCreated = false then
      (false, s1, cleanupEffs)
    else
      let s2 := { s1 with clientPresent := true }
      if env.handshakeOk = false then
        (false, { s2 with clientPresent := false, printerConnected := false },
          cleanupEffs ++ [Effect.gattConnect, Effect.clientDisconnect])
      else if env.linkUpAfterMTU = false then
        (false, { s2 with clientPresent := false, printerConnected := false },
          cleanupEffs ++ [Effect.gattConnect, Effect.setMTU,
            Effect.clientDisconnect])
      else if env.serviceFound = false then
        (false, { s2 with clientPresent := false, printerConnected := false },
          cleanupEffs ++ [Effect.gattConnect, Effect.setMTU,
            Effect.resolveService, Effect.clientDisconnect])
      else
        let s3 := { s2 with charPresent := env.charFound,
                            charCanWrite := env.charFound && env.charWritable }
        if env.charFound = false then
          (false, { s3 with clientPresent := false, printerConnected := false },
            cleanupEffs ++ [Effect.gattConnect, Effect.setMTU,
              Effect.resolveService, Effect.resolveCharacteristic,
              Effect.clientDisconnect])
        else
          let nameOk :=
            env.gaServiceFound = true ∧ env.gaNameCharFound = true ∧
              env.gaNameReadable = true
          let s4 := if nameOk then { s3 with printerName := env.deviceName }
                    else s3
          (true, { s4 with printerConnected := true },
            cleanupEffs ++ [Effect.gattConnect, Effect.setMTU,
              Effect.resolveService, Effect.resolveCharacteristic] ++
              (if nameOk then [Effect.readDeviceName] else []))

/-- Function `getStatusJSON` (main.cpp lines 506-520), with `millis()` passed in as
`now` (the uptime field is `millis() / 1000`).  The concatenation follows
the `json +=` statements of the source segment by segment. -/
def getStatusJSON (now : Nat) (s : SysState) : String :=
  "\x7b" ++ "\"wifi\":\"" ++
    (if s.wifiConnected then "connected" else "disconnected") ++ "\"," ++
    ("\"ip\":\"" ++ s.wifiIP ++ "\",") ++ "\"printer\":\"" ++
    (if s.printerConnected then "connected" else "disconnected") ++ "\"," ++
    ("\"printerName\":\"" ++ s.printerName ++ "\",") ++ "\"uptime\":" ++
    toString (now / 1000) ++ "\x7d"

/-- The /print body handler (main.cpp lines 262-264): each arriving body
fragment is forwarded to `printToBLEPrinter`.  Returns the outcomes, the
final state and the concatenated effect trace. -/
def handlePrintBody (now : Nat) (ack : Nat → Bool) :
    SysState → List (List Nat) → List PrintOutcome × SysState × List Effect
  | s, [] => ([], s, [])
  | s, frag :: rest =>
    let r := printToBLEPrinter now ack s frag
    let t := handlePrintBody now ack r.2.1 rest
    (r.1 :: t.1, t.2.1, r.2.2 ++ t.2.2)

/-- The /print route (main.cpp lines 254-264): the body fragments are fed to
`printToBLEPrinter`; the completion handler answers 500 when the printer
is not connected and 200 otherwise. -/
def handlePrintRequest (now : Nat) (ack : Nat → Bool) (s : SysState)
    (fragments : List (List Nat)) :
    (Nat × String) × List PrintOutcome × SysState × List Effect :=
  let b := handlePrintBody now ack s fragments
  let resp : Nat × String :=
    if b.2.1.printerConnected = false then (500, "Printer not connected")
    else (200, "Print successful")
  (resp, b)

/-- The initial values of the globals in main.cpp: name "Unknown", nothing
found or connected, empty WiFi address, screen on. -/
def initState : SysState :=
  { printerName := "Unknown"
    printerFound := false
    printerConnected := false
    scanCount := 0
    myDevice := none
    clientPresent := false
    charPresent := false
    charCanWrite := false
    wifiConnected := false
    wifiIP := ""
    lastActivityTime := 0
    isScreenOn := true
    backlightOn := true }

/-- A state with an established printer link and a writable characteristic. -/
def connState : SysState :=
  { initState with
      printerConnected := true
      clientPresent := true
      charPresent := true
      charCanWrite := true
      myDevice := some hardcodedScanTarget
      printerName := "XP-D463B" }

/-- A 500-byte payload. -/
def payload500 : List Nat := List.replicate 500 7

/-- An acknowledgement oracle under which the second chunk (index 1) fails. -/
def ackFailSecond : Nat → Bool := fun i => i != 1

/-- A radio environment in which every step of `connectToPrinter` succeeds. -/
def envAllOk : BleEnv :=
  { oldClientConnected := false
    clientCreated := true
    handshakeOk := true
    linkUpAfterMTU := true
    serviceFound := true
    charFound := true
    charWritable := true
    gaServiceFound := true
    gaNameCharFound := true
    gaNameReadable := true
    deviceName := "XP-D463B" }

/-- A radio environment in which the handshake and MTU steps succeed but the
target service is not found. -/
def envServiceFail : BleEnv :=
  { envAllOk with serviceFound := false, charFound := false }

/-- A state in which a device has been found and nothing is connected. -/
def foundState : SysState :=
  { initState with printerFound := true, myDevice := some hardcodedScanTarget }

/-- Claim C2 as the spec states it: when the acknowledged write of chunk `k`
is the first to fail, the writes issued stop at chunk `k` (no later chunk
is ever sent). -/
def claimC2Stated : Prop :=
  ∀ (now : Nat) (ack : Nat → Bool) (s : SysState) (data : List Nat) (k : Nat),
    s.printerConnected = true → s.charPresent = true → s.charCanWrite = true →
    (∀ j, j < k → ack j = true) → ack k = false →
    k + 1 < (bleChunks data).length →
    writesOf (printToBLEPrinter now ack s data).2.2 =
      ((bleChunks data).take (k + 1)).map Effect.bleWrite

/-! Helper lemmas about `wakeScreen`. -/

theorem wakeScreen_printerConnected (now : Nat) (s : SysState) :
    (wakeScreen now s).1.printerConnected = s.printerConnected := by
  unfold wakeScreen; split <;> rfl

theorem wakeScreen_charPresent (now : Nat) (s : SysState) :
    (wakeScreen now s).1.charPresent = s.charPresent := by
  unfold wakeScreen; split <;> rfl

theorem wakeScreen_charCanWrite (now : Nat) (s : SysState) :
    (wakeScreen now s).1.charCanWrite = s.charCanWrite := by
  unfold wakeScreen; split <;> rfl

theorem wakeScreen_lastActivityTime (now : Nat) (s : SysState) :
    (wakeScreen now s).1.lastActivityTime = now := by
  unfold wakeScreen; split <;> rfl

theorem wakeScreen_isScreenOn (now : Nat) (s : SysState) :
    (wakeScreen now s).1.isScreenOn = true := by
  unfold wakeScreen
  split
  · next h => exact h
  · rfl

theorem writesOf_wakeScreen (now : Nat) (s : SysState) :
    writesOf (wakeScreen now s).2 = [] := by
  unfold wakeScreen; split <;> rfl

theorem writesOf_map_bleWrite (l : List (List Nat)) :
    writesOf (l.map Effect.bleWrite) = l.map Effect.bleWrite := by
  induction l with
  | nil => rfl
  | cons a t iht =>
    simp only [List.map_cons]
    unfold writesOf at iht ⊢
    rw [List.filter_cons]
    simp [isBleWrite, iht]

theorem writesOf_append (l1 l2 : List Effect) :
    writesOf (l1 ++ l2) = writesOf l1 ++ writesOf l2 := by
  unfold writesOf
  exact List.filter_append ..

/-- The success branch of `printToBLEPrinter`: connected, characteristic
present and writable. -/
theorem printToBLEPrinter_connected (now : Nat) (ack : Nat → Bool)
    (s : SysState) (data : List Nat) (hc : s.printerConnected = true)
    (hp : s.charPresent = true) (hw : s.charCanWrite = true) :
    printToBLEPrinter now ack s data =
      (PrintOutcome.printed, (wakeScreen now s).1,
        (wakeScreen now s).2 ++ (bleChunks data).map Effect.bleWrite) := by
  simp only [printToBLEPrinter]
  rw [if_neg, if_pos]
  · rw [wakeScreen_charCanWrite, hw]
  · rw [wakeScreen_printerConnected, wakeScreen_charPresent, hc, hp]
    simp

/-- The early-return branch of `printToBLEPrinter` when the connected flag
is down. -/
theorem printToBLEPrinter_notConnected (now : Nat) (ack : Nat → Bool)
    (s : SysState) (data : List Nat) (hc : s.printerConnected = false) :
    printToBLEPrinter now ack s data =
      (PrintOutcome.notConnected, (wakeScreen now s).1, (wakeScreen now s).2) := by
  simp only [printToBLEPrinter]
  rw [if_pos]
  exact Or.inl ((wakeScreen_printerConnected now s).trans hc)

/-! Helper lemmas about the chunking loop. -/

theorem bleWriteLoop_nil (fuel : Nat) : bleWriteLoop fuel [] = [] := by
  cases fuel with
  | zero => rfl
  | succ n => rfl

theorem bleWriteLoop_cons (n : Nat) (x : Nat) (xs : List Nat) :
    bleWriteLoop (n + 1) (x :: xs) =
      (x :: xs).take CHUNK_SIZE :: bleWriteLoop n ((x :: xs).drop CHUNK_SIZE) :=
  rfl

theorem bleWriteLoop_flatten (fuel : Nat) :
    ∀ rem : List Nat, rem.length ≤ fuel →
      (bleWriteLoop fuel rem).flatten = rem := by
  induction fuel with
  | zero =>
    intro rem h
    have hn : rem = [] := List.eq_nil_of_length_eq_zero (Nat.le_zero.mp h)
    subst hn; rfl
  | succ n ih =>
    intro rem h
    cases rem with
    | nil => rfl
    | cons x xs =>
      have h2 : xs.length + 1 ≤ n + 1 := by simpa using h
      have hlen : ((x :: xs).drop CHUNK_SIZE).length ≤ n := by
        rw [List.length_drop, List.length_cons]
        simp only [CHUNK_SIZE]
        omega
      rw [bleWriteLoop_cons, List.flatten_cons, ih _ hlen,
        List.take_append_drop]

theorem bleWriteLoop_length (fuel : Nat) :
    ∀ rem : List Nat, rem.length ≤ fuel →
      (bleWriteLoop fuel rem).length =
        (rem.length + (CHUNK_SIZE - 1)) / CHUNK_SIZE := by
  induction fuel with
  | zero =>
    intro rem h
    have hn : rem = [] := List.eq_nil_of_length_eq_zero (Nat.le_zero.mp h)
    subst hn; decide
  | succ n ih =>
    intro rem h
    cases rem with
    | nil => rw [bleWriteLoop_nil]; decide
    | cons x xs =>
      have h2 : xs.length + 1 ≤ n + 1 := by simpa using h
      have hlen : ((x :: xs).drop CHUNK_SIZE).length ≤ n := by
        rw [List.length_drop, List.length_cons]
        simp only [CHUNK_SIZE]
        omega
      rw [bleWriteLoop_cons, List.length_cons, ih _ hlen, List.length_drop,
        List.length_cons]
      simp only [CHUNK_SIZE]
      omega

theorem bleWriteLoop_sizes (fuel : Nat) :
    ∀ rem : List Nat, rem.length ≤ fuel →
      ∀ c ∈ (bleWriteLoop fuel rem).dropLast, c.length = CHUNK_SIZE := by
  induction fuel with
  | zero =>
    intro rem h
    have hn : rem = [] := List.eq_nil_of_length_eq_zero (Nat.le_zero.mp h)
    subst hn; intro c hc; rw [bleWriteLoop_nil] at hc; simp at hc
  | succ n ih =>
    intro rem h
    cases rem with
    | nil => intro c hc; rw [bleWriteLoop_nil] at hc; simp at hc
    | cons x xs =>
      have h2 : xs.length + 1 ≤ n + 1 := by simpa using h
      have hlen : ((x :: xs).drop CHUNK_SIZE).length ≤ n := by
        rw [List.length_drop, List.length_cons]
        simp only [CHUNK_SIZE]
        omega
      intro c hc
      rw [bleWriteLoop_cons] at hc
      cases hrest : bleWriteLoop n ((x :: xs).drop CHUNK_SIZE) with
      | nil =>
        rw [hrest] at hc
        simp [List.dropLast_single] at hc
      | cons y ys =>
        rw [hrest, List.dropLast_cons₂] at hc
        cases hc with
        | head =>
          have hne : (x :: xs).drop CHUNK_SIZE ≠ [] := by
            intro hnil
            rw [hnil, bleWriteLoop_nil] at hrest
            exact List.noConfusion hrest
          have hlong : CHUNK_SIZE < (x :: xs).length := by
            by_contra hle
            exact hne (List.drop_eq_nil_of_le (Nat.le_of_not_lt hle))
          rw [List.length_take]
          omega
        | tail _ hmem =>
          exact ih _ hlen c (hrest ▸ hmem)

/-- Claim C1: with the printer connected and the characteristic writable,
`printToBLEPrinter` on a nonempty payload issues exactly
`ceil(length / CHUNK_SIZE)` chunk writes, in order, right after the wake
effects; the chunks concatenate back to the payload with no byte
duplicated or dropped, and every chunk except possibly the last has
exactly `CHUNK_SIZE` bytes. -/
theorem printToBLEPrinter_chunking (now : Nat) (ack : Nat → Bool)
    (s : SysState) (data : List Nat) (hc : s.printerConnected = true)
    (hp : s.charPresent = true) (hw : s.charCanWrite = true)
    (hL : 0 < data.length) :
    (printToBLEPrinter now ack s data).2.2 =
      (wakeScreen now s).2 ++ (bleChunks data).map Effect.bleWrite ∧
    writesOf (printToBLEPrinter now ack s data).2.2 =
      (bleChunks data).map Effect.bleWrite ∧
    (bleChunks data).length = (data.length + (CHUNK_SIZE - 1)) / CHUNK_SIZE ∧
    (bleChunks data).flatten = data ∧
    (∀ c ∈ (bleChunks data).dropLast, c.length = CHUNK_SIZE) := by
  have htrace : (printToBLEPrinter now ack s data).2.2 =
      (wakeScreen now s).2 ++ (bleChunks data).map Effect.bleWrite := by
    rw [printToBLEPrinter_connected now ack s data hc hp hw]
  refine ⟨htrace, ?_, ?_, ?_, ?_⟩
  · rw [htrace, writesOf_append, writesOf_wakeScreen, writesOf_map_bleWrite]
    simp
  · exact bleWriteLoop_length data.length data le_rfl
  · exact bleWriteLoop_flatten data.length data le_rfl
  · exact bleWriteLoop_sizes data.length data le_rfl

/-- Witness for `printToBLEPrinter_chunking`: the hypotheses hold and the
conclusion is obtained at a connected state with a 500-byte payload. -/
theorem printToBLEPrinter_chunking_witness :
    (connState.printerConnected = true ∧ connState.charPresent = true ∧
      connState.charCanWrite = true ∧ 0 < payload500.length) ∧
    ((printToBLEPrinter 0 (fun _ => true) connState payload500).2.2 =
        (wakeScreen 0 connState).2 ++
          (bleChunks payload500).map Effect.bleWrite ∧
      writesOf (printToBLEPrinter 0 (fun _ => true) connState
          payload500).2.2 = (bleChunks payload500).map Effect.bleWrite ∧
      (bleChunks payload500).length =
        (payload500.length + (CHUNK_SIZE - 1)) / CHUNK_SIZE ∧
      (bleChunks payload500).flatten = payload500 ∧
      (∀ c ∈ (bleChunks payload500).dropLast, c.length = CHUNK_SIZE)) :=
  ⟨⟨rfl, rfl, rfl, by decide⟩,
    printToBLEPrinter_chunking 0 (fun _ => true) connState payload500
      rfl rfl rfl (by decide)⟩

/-- Claim C2 as stated is false: at a 500-byte payload whose second chunk
(index 1) fails its acknowledged write, the loop still issues a third
chunk, because the source never inspects the result of `writeValue`. -/
theorem claimC2Stated_false : ¬ claimC2Stated := by
  intro h
  have h3 := h 0 ackFailSecond connState payload500 1 rfl rfl rfl
    (by intro j hj
        have hj0 : j = 0 := by omega
        subst hj0; rfl)
    rfl (by decide)
  have hlen := congrArg List.length h3
  have hl : (writesOf (printToBLEPrinter 0 ackFailSecond connState
      payload500).2.2).length = 3 := by decide
  have hr : (((bleChunks payload500).take (1 + 1)).map
      Effect.bleWrite).length = 2 := by decide
  rw [hl, hr] at hlen
  exact absurd hlen (by decide)

/-- Claim C2 amended: on a chunk acknowledgement failure the code neither
aborts nor reports anything.  Whatever the per-chunk acknowledgement
outcomes, `printToBLEPrinter` issues every chunk of the payload in order
and returns the success outcome: the loop discards the result of each
`writeValue` call, and the function has no failure value to carry a
delivered-byte count. -/
theorem printToBLEPrinter_ignores_ack (now : Nat) (ack : Nat → Bool)
    (s : SysState) (data : List Nat) (hc : s.printerConnected = true)
    (hp : s.charPresent = true) (hw : s.charCanWrite = true) :
    (printToBLEPrinter now ack s data).1 = PrintOutcome.printed ∧
    writesOf (printToBLEPrinter now ack s data).2.2 =
      (bleChunks data).map Effect.bleWrite := by
  rw [printToBLEPrinter_connected now ack s data hc hp hw]
  refine ⟨rfl, ?_⟩
  rw [writesOf_append, writesOf_wakeScreen, writesOf_map_bleWrite]
  simp

/-- Witness for `printToBLEPrinter_ignores_ack`, at the very oracle that
fails the second chunk. -/
theorem printToBLEPrinter_ignores_ack_witness :
    (connState.printerConnected = true ∧ connState.charPresent = true ∧
      connState.charCanWrite = true) ∧
    ((printToBLEPrinter 0 ackFailSecond connState payload500).1 =
        PrintOutcome.printed ∧
      writesOf (printToBLEPrinter 0 ackFailSecond connState payload500).2.2 =
        (bleChunks payload500).map Effect.bleWrite) :=
  ⟨⟨rfl, rfl, rfl⟩,
    printToBLEPrinter_ignores_ack 0 ackFailSecond connState payload500
      rfl rfl rfl⟩

/-- Claim C3: after `disconnectFromPrinter` has run, or after the
asynchronous `onDisconnect` callback has cleared the connected flag, a
`printToBLEPrinter` call fails with `notConnected`; its whole effect
trace is the wake effects, so no radio operation is attempted and no
chunk write (hence no characteristic dereference) occurs. -/
theorem write_after_disconnect_fails (now : Nat) (ack : Nat → Bool)
    (b : Bool) (s : SysState) (data : List Nat) :
    (printToBLEPrinter now ack (disconnectFromPrinter b s).1 data).1 =
      PrintOutcome.notConnected ∧
    (printToBLEPrinter now ack (disconnectFromPrinter b s).1 data).2.2 =
      (wakeScreen now (disconnectFromPrinter b s).1).2 ∧
    writesOf (printToBLEPrinter now ack
      (disconnectFromPrinter b s).1 data).2.2 = [] ∧
    (printToBLEPrinter now ack (onDisconnect s) data).1 =
      PrintOutcome.notConnected ∧
    (printToBLEPrinter now ack (onDisconnect s) data).2.2 =
      (wakeScreen now (onDisconnect s)).2 ∧
    writesOf (printToBLEPrinter now ack (onDisconnect s) data).2.2 = [] := by
  have hd : ((disconnectFromPrinter b s).1).printerConnected = false := rfl
  have ho : (onDisconnect s).printerConnected = false := rfl
  have e1 := printToBLEPrinter_notConnected now ack _ data hd
  have e2 := printToBLEPrinter_notConnected now ack _ data ho
  refine ⟨by rw [e1], by rw [e1], ?_, by rw [e2], by rw [e2], ?_⟩
  · rw [e1]; exact writesOf_wakeScreen ..
  · rw [e2]; exact writesOf_wakeScreen ..

/-- Claim C4: `connectToPrinter` called while already connected returns
success immediately, leaves every field of the state unchanged and
produces no effect at all (no scan, no GATT connection, no resolution). -/
theorem connectToPrinter_idempotent (env : BleEnv) (s : SysState)
    (h : s.printerConnected = true) :
    connectToPrinter env s = (true, s, []) := by
  simp only [connectToPrinter]
  rw [if_pos h]

/-- Witness for `connectToPrinter_idempotent` at the connected state. -/
theorem connectToPrinter_idempotent_witness :
    connState.printerConnected = true ∧
      connectToPrinter envAllOk connState = (true, connState, []) :=
  ⟨rfl, connectToPrinter_idempotent envAllOk connState rfl⟩

/-- Claim C5 divergence: the scan matcher compares the advertisement address
only against the hardcoded literal `dd:0d:30:02:63:42`; the build-time
configured `printerMac` (`PRINTER_MAC`) is never consulted.  With
`PRINTER_MAC` configured as `aa:bb:cc:11:22:33`, an advertisement from
that very address matches the configuration case-insensitively yet is
discarded (counted, printer not found, device slot untouched, no scan
stop), while the hardcoded address is matched case-insensitively, stops
the scan, stores the device and sets the found flag. -/
theorem onResult_ignores_configured_mac :
    (eqIgnoreCase ("AA:BB:CC:11:22:33") ("aa:bb:cc:11:22:33") = true ∧
      (onResult ("AA:BB:CC:11:22:33") initState).1.printerFound = false ∧
      (onResult ("AA:BB:CC:11:22:33") initState).1.myDevice = none ∧
      (onResult ("AA:BB:CC:11:22:33") initState).1.scanCount =
        initState.scanCount + 1 ∧
      (onResult ("AA:BB:CC:11:22:33") initState).2 = []) ∧
    (eqIgnoreCase ("DD:0D:30:02:63:42") hardcodedScanTarget = true ∧
      (onResult ("DD:0D:30:02:63:42") initState).1.printerFound = true ∧
      (onResult ("DD:0D:30:02:63:42") initState).1.myDevice =
        some ("DD:0D:30:02:63:42") ∧
      (onResult ("DD:0D:30:02:63:42") initState).1.scanCount =
        initState.scanCount + 1 ∧
      (onResult ("DD:0D:30:02:63:42") initState).2 = [Effect.stopScan]) := by
  decide

theorem u32sub_eq (a b : Nat) (h1 : b ≤ a) (h2 : a < U32) :
    u32sub a b = a - b := by
  simp only [U32] at h2
  simp only [u32sub, U32]
  omega

/-- Claim C6: `checkScreenTimeout` turns the screen off exactly when it is on
and the elapsed time strictly exceeds `SCREEN_TIMEOUT` (and changes
nothing when the screen is off, so it never turns the screen on), and
`wakeScreen` always resets the activity timestamp and, when the screen
is off, turns it on with an immediate status redraw. -/
theorem screen_power_correct (now : Nat) (s : SysState)
    (h1 : s.lastActivityTime ≤ now) (h2 : now < U32) :
    ((checkScreenTimeout now s).1.isScreenOn = false ↔
      (s.isScreenOn = false ∨
        (s.isScreenOn = true ∧
          now - s.lastActivityTime > SCREEN_TIMEOUT))) ∧
    (s.isScreenOn = false → (checkScreenTimeout now s).1 = s ∧
      (checkScreenTimeout now s).2 = []) ∧
    (wakeScreen now s).1.lastActivityTime = now ∧
    (wakeScreen now s).1.isScreenOn = true ∧
    ((wakeScreen now s).2 = if s.isScreenOn = true then []
      else [Effect.backlightHigh, Effect.redrawLCD]) := by
  have hu : u32sub now s.lastActivityTime = now - s.lastActivityTime :=
    u32sub_eq now s.lastActivityTime h1 h2
  refine ⟨?_, ?_, wakeScreen_lastActivityTime now s,
    wakeScreen_isScreenOn now s, ?_⟩
  · unfold checkScreenTimeout
    rw [hu]
    split
    · next hcond =>
      constructor
      · intro _; exact Or.inr hcond
      · intro _; rfl
    · next hcond =>
      constructor
      · intro hoff; exact Or.inl hoff
      · intro hor
        rcases hor with hoff | hon
        · exact hoff
        · exact absurd hon hcond
  · intro hoff
    unfold checkScreenTimeout
    rw [if_neg]
    · exact ⟨rfl, rfl⟩
    · simp [hoff]
  · unfold wakeScreen
    split <;> rfl

/-- Witness for `screen_power_correct` at the initial state, well past the
timeout. -/
theorem screen_power_correct_witness :
    (initState.lastActivityTime ≤ 40000 ∧ 40000 < U32) ∧
    (((checkScreenTimeout 40000 initState).1.isScreenOn = false ↔
       (initState.isScreenOn = false ∨
         (initState.isScreenOn = true ∧
           40000 - initState.lastActivityTime > SCREEN_TIMEOUT))) ∧
     (initState.isScreenOn = false →
       (checkScreenTimeout 40000 initState).1 = initState ∧
       (checkScreenTimeout 40000 initState).2 = []) ∧
     (wakeScreen 40000 initState).1.lastActivityTime = 40000 ∧
     (wakeScreen 40000 initState).1.isScreenOn = true ∧
     ((wakeScreen 40000 initState).2 = if initState.isScreenOn = true then []
       else [Effect.backlightHigh, Effect.redrawLCD])) :=
  ⟨⟨by decide, by decide⟩,
    screen_power_correct 40000 initState (by decide) (by decide)⟩

/-- Claim C7: every `printToBLEPrinter` call wakes the screen first,
regardless of state and outcome: the resulting state carries the new
activity timestamp and a lit screen even when the call fails with
`notConnected`, and the effect trace starts with the wake effects,
before any BLE write. -/
theorem printToBLEPrinter_wakes_first (now : Nat) (ack : Nat → Bool)
    (s : SysState) (data : List Nat) :
    (printToBLEPrinter now ack s data).2.1.lastActivityTime = now ∧
    (printToBLEPrinter now ack s data).2.1.isScreenOn = true ∧
    (printToBLEPrinter now ack s data).2.1 = (wakeScreen now s).1 ∧
    (∃ t, (printToBLEPrinter now ack s data).2.2 =
      (wakeScreen now s).2 ++ t) := by
  have hst : (printToBLEPrinter now ack s data).2.1 = (wakeScreen now s).1 := by
    simp only [printToBLEPrinter]
    split
    · rfl
    · split <;> rfl
  refine ⟨?_, ?_, hst, ?_⟩
  · rw [hst]; exact wakeScreen_lastActivityTime now s
  · rw [hst]; exact wakeScreen_isScreenOn now s
  · simp only [printToBLEPrinter]
    split
    · exact ⟨[], by simp⟩
    · split
      · exact ⟨(bleChunks data).map Effect.bleWrite, rfl⟩
      · exact ⟨[], by simp⟩

/-- Claim C8: the status snapshot is one JSON object string that contains
all five fields wifi, ip, printer, printerName and uptime, for every
state; the ip and printerName fields carry the state values verbatim, so
an empty WiFi address and the default placeholder name still appear as
populated fields, and at the initial state (WiFi down, printer
unconnected) the output is exactly the degenerate JSON object.
`getStatusJSON` is a pure function of the state, so computing the
snapshot mutates nothing. -/
theorem getStatusJSON_wellFormed (now : Nat) (s : SysState) :
    (∃ p q, (getStatusJSON now s).data =
      p ++ ("\"wifi\":\"").data ++ q) ∧
    (∃ p q, (getStatusJSON now s).data =
      p ++ ("\"ip\":\"" ++ s.wifiIP ++ "\",").data ++ q) ∧
    (∃ p q, (getStatusJSON now s).data =
      p ++ ("\"printer\":\"").data ++ q) ∧
    (∃ p q, (getStatusJSON now s).data =
      p ++ ("\"printerName\":\"" ++ s.printerName ++ "\",").data ++ q) ∧
    (∃ p q, (getStatusJSON now s).data =
      p ++ ("\"uptime\":" ++ toString (now / 1000)).data ++ q) ∧
    getStatusJSON 0 initState =
      "\x7b\"wifi\":\"disconnected\",\"ip\":\"\",\"printer\":\"disconnected\",\"printerName\":\"Unknown\",\"uptime\":0\x7d" := by
  refine ⟨?_, ?_, ?_, ?_, ?_, by decide⟩
  · refine ⟨("\x7b").data,
      ((if s.wifiConnected then "connected" else "disconnected") ++ "\"," ++
        ("\"ip\":\"" ++ s.wifiIP ++ "\",") ++ "\"printer\":\"" ++
        (if s.printerConnected then "connected" else "disconnected") ++
        "\"," ++ ("\"printerName\":\"" ++ s.printerName ++ "\",") ++
        "\"uptime\":" ++ toString (now / 1000) ++ "\x7d").data, ?_⟩
    simp [getStatusJSON, String.data_append, List.append_assoc]
  · refine ⟨("\x7b" ++ "\"wifi\":\"" ++
      (if s.wifiConnected then "connected" else "disconnected") ++
      "\",").data,
      ("\"printer\":\"" ++
        (if s.printerConnected then "connected" else "disconnected") ++
        "\"," ++ ("\"printerName\":\"" ++ s.printerName ++ "\",") ++
        "\"uptime\":" ++ toString (now / 1000) ++ "\x7d").data, ?_⟩
    simp [getStatusJSON, String.data_append, List.append_assoc]
  · refine ⟨("\x7b" ++ "\"wifi\":\"" ++
      (if s.wifiConnected then "connected" else "disconnected") ++ "\"," ++
      ("\"ip\":\"" ++ s.wifiIP ++ "\",")).data,
      ((if s.printerConnected then "connected" else "disconnected") ++
        "\"," ++ ("\"printerName\":\"" ++ s.printerName ++ "\",") ++
        "\"uptime\":" ++ toString (now / 1000) ++ "\x7d").data, ?_⟩
    simp [getStatusJSON, String.data_append, List.append_assoc]
  · refine ⟨("\x7b" ++ "\"wifi\":\"" ++
      (if s.wifiConnected then "connected" else "disconnected") ++ "\"," ++
      ("\"ip\":\"" ++ s.wifiIP ++ "\",") ++ "\"printer\":\"" ++
      (if s.printerConnected then "connected" else "disconnected") ++
      "\",").data,
      ("\"uptime\":" ++ toString (now / 1000) ++ "\x7d").data, ?_⟩
    simp [getStatusJSON, String.data_append, List.append_assoc]
  · refine ⟨("\x7b" ++ "\"wifi\":\"" ++
      (if s.wifiConnected then "connected" else "disconnected") ++ "\"," ++
      ("\"ip\":\"" ++ s.wifiIP ++ "\",") ++ "\"printer\":\"" ++
      (if s.printerConnected then "connected" else "disconnected") ++
      "\"," ++ ("\"printerName\":\"" ++ s.printerName ++ "\",")).data,
      ("\x7d").data, ?_⟩
    simp [getStatusJSON, String.data_append, List.append_assoc]

theorem printToBLEPrinter_state (now : Nat) (ack : Nat → Bool) (s : SysState)
    (data : List Nat) :
    (printToBLEPrinter now ack s data).2.1 = (wakeScreen now s).1 := by
  simp only [printToBLEPrinter]
  split
  · rfl
  · split <;> rfl

theorem handlePrintBody_cons (now : Nat) (ack : Nat → Bool) (s : SysState)
    (f : List Nat) (rest : List (List Nat)) :
    handlePrintBody now ack s (f :: rest) =
      ((printToBLEPrinter now ack s f).1 ::
        (handlePrintBody now ack (printToBLEPrinter now ack s f).2.1 rest).1,
       (handlePrintBody now ack (printToBLEPrinter now ack s f).2.1
         rest).2.1,
       (printToBLEPrinter now ack s f).2.2 ++
        (handlePrintBody now ack (printToBLEPrinter now ack s f).2.1
          rest).2.2) :=
  rfl

theorem handlePrintBody_connected_flag (now : Nat) (ack : Nat → Bool) :
    ∀ (frags : List (List Nat)) (s : SysState),
      (handlePrintBody now ack s frags).2.1.printerConnected =
        s.printerConnected := by
  intro frags
  induction frags with
  | nil => intro s; rfl
  | cons f rest ih =>
    intro s
    simp only [handlePrintBody_cons]
    rw [ih, printToBLEPrinter_state, wakeScreen_printerConnected]

theorem handlePrintBody_notConnected (now : Nat) (ack : Nat → Bool) :
    ∀ (frags : List (List Nat)) (s : SysState), s.printerConnected = false →
      (handlePrintBody now ack s frags).1 =
        frags.map (fun _ => PrintOutcome.notConnected) ∧
      writesOf (handlePrintBody now ack s frags).2.2 = [] := by
  intro frags
  induction frags with
  | nil => intro s hs; exact ⟨rfl, rfl⟩
  | cons f rest ih =>
    intro s hs
    have he := printToBLEPrinter_notConnected now ack s f hs
    have hs2 : (printToBLEPrinter now ack s f).2.1.printerConnected = false := by
      rw [printToBLEPrinter_state, wakeScreen_printerConnected]
      exact hs
    obtain ⟨ih1, ih2⟩ := ih (printToBLEPrinter now ack s f).2.1 hs2
    constructor
    · simp only [handlePrintBody_cons, List.map_cons]
      rw [ih1, he]
    · simp only [handlePrintBody_cons]
      rw [writesOf_append, ih2, he]
      rw [writesOf_wakeScreen]
      rfl

/-- Claim C9: a POST /print request answers 200 "Print successful" exactly
when the printer is connected and 500 "Printer not connected" otherwise;
while not connected, every body fragment fails with `notConnected` in
the relay and no BLE chunk write happens at all. -/
theorem printRoute_correct (now : Nat) (ack : Nat → Bool) (s : SysState)
    (frags : List (List Nat)) :
    ((handlePrintRequest now ack s frags).1 =
      if s.printerConnected = true then (200, "Print successful")
      else (500, "Printer not connected")) ∧
    (s.printerConnected = false →
      (handlePrintRequest now ack s frags).2.1 =
        frags.map (fun _ => PrintOutcome.notConnected) ∧
      writesOf (handlePrintRequest now ack s frags).2.2.2 = []) := by
  constructor
  · simp only [handlePrintRequest]
    rw [handlePrintBody_connected_flag]
    cases hc : s.printerConnected
    · simp
    · simp
  · intro hs
    have h3 := handlePrintBody_notConnected now ack frags s hs
    exact ⟨h3.1, h3.2⟩

/-- Witness for `printRoute_correct` at the initial (unconnected) state with
one body fragment. -/
theorem printRoute_correct_witness :
    initState.printerConnected = false ∧
    (((handlePrintRequest 0 (fun _ => true) initState [[1, 2, 3]]).1 =
       if initState.printerConnected = true then (200, "Print successful")
       else (500, "Printer not connected")) ∧
     (initState.printerConnected = false →
       (handlePrintRequest 0 (fun _ => true) initState [[1, 2, 3]]).2.1 =
         [[1, 2, 3]].map (fun _ => PrintOutcome.notConnected) ∧
       writesOf (handlePrintRequest 0 (fun _ => true) initState
         [[1, 2, 3]]).2.2.2 = [])) :=
  ⟨rfl, printRoute_correct 0 (fun _ => true) initState [[1, 2, 3]]⟩

/-- Claim C10: under the preconditions of a fresh connect attempt (not
connected, device found, client creation succeeded), every listed
failure path of `connectToPrinter` — handshake failure, link drop after
MTU negotiation, service not found, characteristic not found — returns
false and leaves the session torn down: connected flag false and client
handle cleared; moreover the call succeeds exactly when it ends
connected, and that happens only when every step up to the resolution of
both the target service and the target characteristic succeeded. -/
theorem connectToPrinter_teardown (env : BleEnv) (s : SysState) (d : String)
    (hc : s.printerConnected = false) (hf : s.printerFound = true)
    (hd : s.myDevice = some d) (hcc : env.clientCreated = true) :
    ((connectToPrinter env s).2.1.printerConnected = true →
      env.handshakeOk = true ∧ env.linkUpAfterMTU = true ∧
      env.serviceFound = true ∧ env.charFound = true) ∧
    ((connectToPrinter env s).1 = true ↔
      (connectToPrinter env s).2.1.printerConnected = true) ∧
    (env.handshakeOk = false →
      (connectToPrinter env s).1 = false ∧
      (connectToPrinter env s).2.1.printerConnected = false ∧
      (connectToPrinter env s).2.1.clientPresent = false) ∧
    (env.linkUpAfterMTU = false →
      (connectToPrinter env s).1 = false ∧
      (connectToPrinter env s).2.1.printerConnected = false ∧
      (connectToPrinter env s).2.1.clientPresent = false) ∧
    (env.serviceFound = false →
      (connectToPrinter env s).1 = false ∧
      (connectToPrinter env s).2.1.printerConnected = false ∧
      (connectToPrinter env s).2.1.clientPresent = false) ∧
    (env.charFound = false →
      (connectToPrinter env s).1 = false ∧
      (connectToPrinter env s).2.1.printerConnected = false ∧
      (connectToPrinter env s).2.1.clientPresent = false) := by
  cases h1 : env.handshakeOk <;> cases h2 : env.linkUpAfterMTU <;>
    cases h3 : env.serviceFound <;> cases h4 : env.charFound <;>
    simp [connectToPrinter, hc, hf, hd, hcc, h1, h2, h3, h4]

/-- Witness for `connectToPrinter_teardown` at a found-but-unconnected state
in an environment in which the target service is missing. -/
theorem connectToPrinter_teardown_witness :
    (foundState.printerConnected = false ∧ foundState.printerFound = true ∧
      foundState.myDevice = some hardcodedScanTarget ∧
      envServiceFail.clientCreated = true) ∧
    (((connectToPrinter envServiceFail foundState).2.1.printerConnected =
        true →
      envServiceFail.handshakeOk = true ∧
      envServiceFail.linkUpAfterMTU = true ∧
      envServiceFail.serviceFound = true ∧
      envServiceFail.charFound = true) ∧
    ((connectToPrinter envServiceFail foundState).1 = true ↔
      (connectToPrinter envServiceFail foundState).2.1.printerConnected =
        true) ∧
    (envServiceFail.handshakeOk = false →
      (connectToPrinter envServiceFail foundState).1 = false ∧
      (connectToPrinter envServiceFail
        foundState).2.1.printerConnected = false ∧
      (connectToPrinter envServiceFail foundState).2.1.clientPresent =
        false) ∧
    (envServiceFail.linkUpAfterMTU = false →
      (connectToPrinter envServiceFail foundState).1 = false ∧
      (connectToPrinter envServiceFail
        foundState).2.1.printerConnected = false ∧
      (connectToPrinter envServiceFail foundState).2.1.clientPresent =
        false) ∧
    (envServiceFail.serviceFound = false →
      (connectToPrinter envServiceFail foundState).1 = false ∧
      (connectToPrinter envServiceFail
        foundState).2.1.printerConnected = false ∧
      (connectToPrinter envServiceFail foundState).2.1.clientPresent =
        false) ∧
    (envServiceFail.charFound = false →
      (connectToPrinter envServiceFail foundState).1 = false ∧
      (connectToPrinter envServiceFail
        foundState).2.1.printerConnected = false ∧
      (connectToPrinter envServiceFail foundState).2.1.clientPresent =
        false)) :=
  ⟨⟨rfl, rfl, rfl, rfl⟩,
    connectToPrinter_teardown envServiceFail foundState hardcodedScanTarget
      rfl rfl rfl rfl⟩

end XPD463B
